import Mathlib

/-!
Verification development for the qb-oauth-service repository.

The Python source (src/main.py, src/db.py, src/reports/invoices.py,
src/reports/invoice_lines_all.py) is shallowly embedded below:

* The token store (table `qbo_tokens`, one row per realm) becomes a function
  `Store : String → Option TokenRecord`.
* Provider HTTP responses (the Intuit bearer-token endpoint) become the
  `TokenResponse` structure holding the JSON fields the code reads.
* Time is an explicit `now : Int` (seconds); `datetime + timedelta(seconds=k)`
  becomes `now + k`.
* `raise RuntimeError("RECONNECT_REQUIRED: ...")` / `"token_refresh_failed: ..."`
  become the `TokenError` inductive (the Python code dispatches on exactly this
  message-prefix distinction).
* Functions that perform one outbound HTTP refresh call additionally return a
  `Nat` counting the refresh HTTP calls actually issued.

Python truthiness of optional JSON/DB string fields (`if not x`) is modelled by
`truthyStr` (absent or empty string are falsy); truthiness of optional integer
fields by `truthyInt` (absent or zero are falsy).
-/

/-- One row of the `qbo_tokens` table (columns read/written by the code;
`realm_id` is the key of the `Store` map, `updated_at` is set by the DB and
never read, so it is not modelled). -/
structure TokenRecord where
  access_token : Option String
  refresh_token : Option String
  expires_at : Option Int
  refresh_expires_at : Option Int
deriving Repr, DecidableEq

/-- The token store: at most one `TokenRecord` per realm id. -/
abbrev Store := String → Option TokenRecord

/-- The store with no records. -/
def emptyStore : Store := fun _ => none

/-- Upsert of a record for a realm, as done by the SQL `update`/`insert … on
conflict do update` statements in src/main.py. -/
def storePut (store : Store) (realm_id : String) (rec : TokenRecord) : Store :=
  fun r => if r = realm_id then some rec else store r

/-- JSON body (as read by the code) of a response from the Intuit bearer-token
endpoint, together with its HTTP status code.  A field that is absent from the
JSON object is `none`. -/
structure TokenResponse where
  status_code : Nat
  error : Option String
  access_token : Option String
  refresh_token : Option String
  expires_in : Option Int
  x_refresh_token_expires_in : Option Int
deriving Repr, DecidableEq

/-- The two RuntimeError kinds raised by the token lifecycle code,
distinguished in src/main.py by the message prefix (`RECONNECT_REQUIRED` vs
`token_refresh_failed`). -/
inductive TokenError where
  | reconnectRequired
  | tokenRefreshFailed
deriving Repr, DecidableEq

/-- Python truthiness of an optional string field: `not x` holds exactly when
the field is absent or the empty string. -/
def truthyStr (o : Option String) : Bool :=
  match o with
  | some s => !s.isEmpty
  | none => false

/-- Python truthiness of an optional integer field: absent or `0` are falsy. -/
def truthyInt (o : Option Int) : Bool :=
  match o with
  | some n => n != 0
  | none => false

/-- List-of-characters prefix test (used to embed Python's `in` substring
test). -/
def isPre : List Char → List Char → Bool
  | [], _ => true
  | _ :: _, [] => false
  | a :: as, b :: bs => a = b && isPre as bs

/-- Substring occurrence test on character lists: Python's `needle in hay`. -/
def hasSub (needle : List Char) : List Char → Bool
  | [] => needle.isEmpty
  | c :: cs => isPre needle (c :: cs) || hasSub needle cs

/-- Embeds `"invalid_grant" in (data.get("error") or "").lower()` from
src/main.py line 112-113 (`.lower()` as character-wise `Char.toLower`). -/
def invalidGrantReported (resp : TokenResponse) : Bool :=
  hasSub "invalid_grant".toList ((resp.error.getD "").toList.map Char.toLower)

/-- Embeds `int(data.get("expires_in", 3600))` (src/main.py line 122). -/
def respExpiresIn (resp : TokenResponse) : Int :=
  resp.expires_in.getD 3600

/-- Embeds the `x_refresh_token_expires_in` handling (src/main.py lines
125-128): only a truthy value produces a refresh expiry timestamp. -/
def respRefreshExpiresAt (resp : TokenResponse) (now : Int) : Option Int :=
  if truthyInt resp.x_refresh_token_expires_in then
    some (now + resp.x_refresh_token_expires_in.getD 0)
  else none

/-- The row written by the SQL `update` in `refresh_access_token`
(src/main.py lines 130-151): new access token and expiry always, the old
refresh token kept when the provider's `refresh_token` field is falsy
(`new_refresh_token or refresh_token`). -/
def refreshedRecord (row : TokenRecord) (resp : TokenResponse) (now : Int) :
    TokenRecord :=
  { access_token := resp.access_token
    refresh_token :=
      if truthyStr resp.refresh_token then resp.refresh_token
      else row.refresh_token
    expires_at := some (now + respExpiresIn resp)
    refresh_expires_at := respRefreshExpiresAt resp now }

/-- Embedding of `refresh_access_token` (src/main.py lines 73-153).  `resp` is
the provider's response to the refresh HTTP call; the returned `Nat` counts
the refresh HTTP calls issued (0 when the function fails before calling the
provider, 1 otherwise). -/
def refresh_access_token (store : Store) (realm_id : String)
    (resp : TokenResponse) (now : Int) :
    Except TokenError (String × Store) × Nat :=
  match store realm_id with
  | none => (Except.error TokenError.reconnectRequired, 0)
  | some row =>
    if !truthyStr row.refresh_token then
      (Except.error TokenError.reconnectRequired, 0)
    else if 400 ≤ resp.status_code then
      if invalidGrantReported resp then
        (Except.error TokenError.reconnectRequired, 1)
      else
        (Except.error TokenError.tokenRefreshFailed, 1)
    else
      match resp.access_token with
      | none => (Except.error TokenError.tokenRefreshFailed, 1)
      | some nt =>
        if nt.isEmpty then (Except.error TokenError.tokenRefreshFailed, 1)
        else
          (Except.ok (nt, storePut store realm_id (refreshedRecord row resp now)), 1)

/-- Embedding of `get_valid_access_token` (src/main.py lines 155-175).  `resp`
is the provider response that a refresh HTTP call, if issued, would receive;
the returned `Nat` counts refresh HTTP calls issued. -/
def get_valid_access_token (store : Store) (realm_id : String)
    (resp : TokenResponse) (now : Int) (refresh_skew_seconds : Int) :
    Except TokenError (String × Store) × Nat :=
  match store realm_id with
  | none => (Except.error TokenError.reconnectRequired, 0)
  | some row =>
    match row.access_token, row.expires_at with
    | some a, some e =>
      if a.isEmpty then (Except.error TokenError.reconnectRequired, 0)
      else if e ≤ now + refresh_skew_seconds then
        refresh_access_token store realm_id resp now
      else (Except.ok (a, store), 0)
    | _, _ => (Except.error TokenError.reconnectRequired, 0)

/-- Outcomes of the `/oauth/callback` handler (src/main.py lines 210-282):
the four failure JSON bodies and the success body.  Each constructor carries
the data that the handler serializes into the corresponding response body. -/
inductive CallbackResult where
  | missingParams (code realmId state : Option String)
  | invalidState
  | tokenExchangeFailed (details : TokenResponse)
  | missingTokens (details : TokenResponse)
  | connected (realmId : String)
deriving Repr, DecidableEq

/-- The string values contained in the JSON serialization of a provider
response (used when a handler echoes the whole response as `details`). -/
def TokenResponse.stringVals (resp : TokenResponse) : List String :=
  resp.error.toList ++ resp.access_token.toList ++ resp.refresh_token.toList

/-- The string values serialized into the HTTP response body the handler
returns for each callback outcome, following the `JSONResponse` bodies in
src/main.py (`details` echoes the full provider response). -/
def responseStrings : CallbackResult → List String
  | CallbackResult.missingParams c r s =>
    "missing_params" :: (c.toList ++ r.toList ++ s.toList)
  | CallbackResult.invalidState => ["invalid_state"]
  | CallbackResult.tokenExchangeFailed d => "token_exchange_failed" :: d.stringVals
  | CallbackResult.missingTokens d => "missing_tokens_in_response" :: d.stringVals
  | CallbackResult.connected r => ["connected", r]

/-- The row inserted/updated by the upsert at the end of the callback
(src/main.py lines 263-279). -/
def exchangedRecord (tok rt : String) (resp : TokenResponse) (now : Int) :
    TokenRecord :=
  { access_token := some tok
    refresh_token := some rt
    expires_at := some (now + respExpiresIn resp)
    refresh_expires_at := respRefreshExpiresAt resp now }

/-- Embedding of the `/oauth/callback` handler `oauth_callback` (src/main.py
lines 210-282).  `code`, `realmId`, `state` are the query parameters, `cookie`
the `qbo_oauth_state` cookie, `resp` the provider's response to the
authorization-code exchange; returns the outcome and the resulting store. -/
def oauth_callback (store : Store) (code realmId state cookie : Option String)
    (resp : TokenResponse) (now : Int) : CallbackResult × Store :=
  if !(truthyStr code && truthyStr realmId && truthyStr state) then
    (CallbackResult.missingParams code realmId state, store)
  else
    match code, realmId, state with
    | some _, some r, some s =>
      match cookie with
      | none => (CallbackResult.invalidState, store)
      | some cs =>
        if cs.isEmpty || cs != s then (CallbackResult.invalidState, store)
        else if 400 ≤ resp.status_code then
          (CallbackResult.tokenExchangeFailed resp, store)
        else
          match resp.access_token, resp.refresh_token with
          | some tok, some rt =>
            if tok.isEmpty || rt.isEmpty then
              (CallbackResult.missingTokens resp, store)
            else
              (CallbackResult.connected r,
               storePut store r (exchangedRecord tok rt resp now))
          | _, _ => (CallbackResult.missingTokens resp, store)
    | _, _, _ => (CallbackResult.missingParams code realmId state, store)

/-!
Report exporters (src/reports/invoices.py and src/reports/invoice_lines_all.py).

`qbo_query_all` pages through the provider's query endpoint: start position 1,
advancing by `page_size`, stopping as soon as a page returns fewer rows than
`page_size`.  The provider is embedded as the list of successive page payloads
(`QueryResponse.Invoice` batches) it answers with; the embedding returns the
concatenated rows together with the list of `STARTPOSITION` values of the
queries actually issued (so its length is the number of provider calls).
-/

/-- The paging loop of `qbo_query_all` (src/reports/invoices.py lines 22-57,
identically src/reports/invoice_lines_all.py lines 21-54), recursing over the
successive provider batches. -/
def qboQueryGo {α : Type} (page_size : Nat) :
    List (List α) → Nat → List α × List Nat
  | [], _ => ([], [])
  | batch :: rest, start =>
    if batch.length < page_size then (batch, [start])
    else
      let r := qboQueryGo page_size rest (start + page_size)
      (batch ++ r.1, start :: r.2)

/-- Embedding of `qbo_query_all`: all rows fetched, plus the 1-based start
positions of the issued queries. -/
def qbo_query_all {α : Type} (pages : List (List α)) (page_size : Nat) :
    List α × List Nat :=
  qboQueryGo page_size pages 1

/-- JSON values, as manipulated by the invoice-flattening code. -/
inductive J where
  | null : J
  | str : String → J
  | num : Int → J
  | bool : Bool → J
  | arr : List J → J
  | obj : List (String × J) → J
deriving Repr

/-- Python truthiness of a JSON value. -/
def J.truthy : J → Bool
  | J.null => false
  | J.str s => !s.isEmpty
  | J.num n => n != 0
  | J.bool b => b
  | J.arr xs => !xs.isEmpty
  | J.obj fs => !fs.isEmpty

/-- Dictionary lookup on a JSON object's field list. -/
def jlookup : List (String × J) → String → Option J
  | [], _ => none
  | (k, v) :: rest, key => if k = key then some v else jlookup rest key

/-- Python `d.get(key)`: `none` when the value is not an object or lacks the
key. -/
def J.get (j : J) (key : String) : Option J :=
  match j with
  | J.obj fs => jlookup fs key
  | _ => none

/-- Python `d.get(key, default)`. -/
def J.getD (j : J) (key : String) (d : J) : J :=
  (j.get key).getD d

/-- Python's `(d.get(key) or {})` pattern: a falsy or absent value becomes the
empty dict. -/
def jGetOr (j : J) (key : String) : J :=
  match j.get key with
  | some v => if v.truthy then v else J.obj []
  | none => J.obj []

mutual
/-- A model of `json.dumps` for JSON values (used by `safe_json`). -/
def jdump : J → String
  | J.null => "null"
  | J.str s => "\"" ++ s ++ "\""
  | J.num n => toString n
  | J.bool b => if b then "true" else "false"
  | J.arr xs => "[" ++ String.intercalate ", " (jdumpList xs) ++ "]"
  | J.obj fs => "\x7b" ++ String.intercalate ", " (jdumpFields fs) ++ "\x7d"

/-- Serialization of the elements of a JSON array. -/
def jdumpList : List J → List String
  | [] => []
  | j :: js => jdump j :: jdumpList js

/-- Serialization of the fields of a JSON object. -/
def jdumpFields : List (String × J) → List String
  | [] => []
  | (k, v) :: fs => ("\"" ++ k ++ "\": " ++ jdump v) :: jdumpFields fs
end

/-- Embedding of `safe_json` (src/reports/invoice_lines_all.py lines 57-59):
`None` becomes the empty string, everything else is dumped as JSON. -/
def safe_json (j : J) : String :=
  match j with
  | J.null => ""
  | j => jdump j

/-- How Python's `csv` writer renders a cell value (`str()` conversion, with
`None` written as the empty string). -/
def csvRender : J → String
  | J.null => ""
  | J.str s => s
  | J.num n => toString n
  | J.bool b => if b then "True" else "False"
  | j => jdump j

/-- One flattened invoice-line row, with the fields built by
`flatten_invoice_lines` (src/reports/invoice_lines_all.py lines 100-135). -/
structure LineRow where
  RealmId : String
  InvoiceId : J
  DocNumber : J
  TxnDate : J
  CustomerId : J
  CustomerName : J
  PurchaseOrderRef : J
  InvoiceMeta_CreateTime : J
  InvoiceMeta_LastUpdatedTime : J
  LineIndex : Int
  LineId : J
  DetailType : J
  Amount : J
  Description : J
  ItemId : J
  ItemName : J
  Qty : J
  UnitPrice : J
  TaxCode : J
  Line_json : J
  Invoice_json : J

/-- Python's `enumerate(lines, start=1)`. -/
def enumFrom {α : Type} : Nat → List α → List (Nat × α)
  | _, [] => []
  | i, a :: as => (i, a) :: enumFrom (i + 1) as

/-- The row built for one line of one invoice (loop body of
`flatten_invoice_lines`). -/
def lineRowOf (invoice : J) (idx : Nat) (line : J) : LineRow :=
  let customer_ref := jGetOr invoice "CustomerRef"
  let meta := jGetOr invoice "MetaData"
  let sales_detail := jGetOr line "SalesItemLineDetail"
  let item_ref := jGetOr sales_detail "ItemRef"
  let tax_code_ref := jGetOr sales_detail "TaxCodeRef"
  { RealmId := ""
    InvoiceId := invoice.getD "Id" (J.str "")
    DocNumber := invoice.getD "DocNumber" (J.str "")
    TxnDate := invoice.getD "TxnDate" (J.str "")
    CustomerId := customer_ref.getD "value" (J.str "")
    CustomerName := customer_ref.getD "name" (J.str "")
    PurchaseOrderRef := invoice.getD "PurchaseOrderRef" (J.str "")
    InvoiceMeta_CreateTime := meta.getD "CreateTime" (J.str "")
    InvoiceMeta_LastUpdatedTime := meta.getD "LastUpdatedTime" (J.str "")
    LineIndex := Int.ofNat idx
    LineId := line.getD "Id" (J.str "")
    DetailType := line.getD "DetailType" (J.str "")
    Amount := line.getD "Amount" (J.str "")
    Description := line.getD "Description" (J.str "")
    ItemId := item_ref.getD "value" (J.str "")
    ItemName := item_ref.getD "name" (J.str "")
    Qty := sales_detail.getD "Qty" (J.str "")
    UnitPrice := sales_detail.getD "UnitPrice" (J.str "")
    TaxCode := tax_code_ref.getD "value" (J.str "")
    Line_json := line
    Invoice_json := invoice }

/-- Embedding of `flatten_invoice_lines` (src/reports/invoice_lines_all.py
lines 62-139): one row per element of the invoice's `Line` array (no rows
when `Line` is absent, falsy, or not a list). -/
def flatten_invoice_lines (invoice : J) : List LineRow :=
  let lines : List J :=
    match invoice.get "Line" with
    | some (J.arr xs) => xs
    | _ => []
  (enumFrom 1 lines).map (fun p => lineRowOf invoice p.1 p.2)

/-- The `all_lines` list built by the endpoint (src/reports/invoice_lines_all.py
lines 171-176): every invoice flattened, with `RealmId` filled in. -/
def allLines (realm : String) (invoices : List J) : List LineRow :=
  (invoices.map (fun inv =>
    (flatten_invoice_lines inv).map (fun r => { r with RealmId := realm }))).flatten

/-- The JSON export of the endpoint: the `all_lines` rows, serialized as-is. -/
def jsonExport (realm : String) (invoices : List J) : List LineRow :=
  allLines realm invoices

/-- The cells of one CSV data row, in the endpoint's `fieldnames` order
(src/reports/invoice_lines_all.py lines 193-225): dict values stringified by
the csv writer, with the two raw-blob columns replaced by `safe_json`. -/
def csvCells (r : LineRow) : List String :=
  [ r.RealmId,
    csvRender r.InvoiceId, csvRender r.DocNumber, csvRender r.TxnDate,
    csvRender r.CustomerId, csvRender r.CustomerName,
    csvRender r.PurchaseOrderRef,
    csvRender r.InvoiceMeta_CreateTime, csvRender r.InvoiceMeta_LastUpdatedTime,
    toString r.LineIndex,
    csvRender r.LineId, csvRender r.DetailType, csvRender r.Amount,
    csvRender r.Description,
    csvRender r.ItemId, csvRender r.ItemName, csvRender r.Qty,
    csvRender r.UnitPrice, csvRender r.TaxCode,
    safe_json r.Line_json, safe_json r.Invoice_json ]

/-- The CSV export of the endpoint: one row of cells per `all_lines` row. -/
def csvExport (realm : String) (invoices : List J) : List (List String) :=
  (allLines realm invoices).map csvCells

/-- The JSON values of the 19 extracted (non-raw-blob) fields of a row, in the
same order as the CSV `fieldnames` prefix. -/
def extractedJsonVals (r : LineRow) : List J :=
  [ J.str r.RealmId,
    r.InvoiceId, r.DocNumber, r.TxnDate, r.CustomerId, r.CustomerName,
    r.PurchaseOrderRef, r.InvoiceMeta_CreateTime, r.InvoiceMeta_LastUpdatedTime,
    J.num r.LineIndex,
    r.LineId, r.DetailType, r.Amount, r.Description,
    r.ItemId, r.ItemName, r.Qty, r.UnitPrice, r.TaxCode ]

/-!
Concrete sample data used by the witness and counterexample theorems.
-/

/-- A stored record whose access token expires soon (at time 100). -/
def row1 : TokenRecord :=
  { access_token := some "OLDTOK", refresh_token := some "RT1",
    expires_at := some 100, refresh_expires_at := none }

/-- A stored record whose access token is valid far into the future. -/
def rowFresh : TokenRecord :=
  { access_token := some "OLDTOK", refresh_token := some "RT1",
    expires_at := some 100000, refresh_expires_at := none }

/-- A stored record holding a valid access token but no refresh token. -/
def rowNoRT : TokenRecord :=
  { access_token := some "ATOK", refresh_token := none,
    expires_at := some 1000000, refresh_expires_at := none }

/-- A stored record whose access token expires soon and that holds no refresh
token. -/
def rowSoonNoRT : TokenRecord :=
  { access_token := some "ATOK", refresh_token := none,
    expires_at := some 100, refresh_expires_at := none }

/-- Store holding `row1` under realm `realm1`. -/
def store1 : Store := storePut emptyStore "realm1" row1

/-- Store holding `rowFresh` under realm `realm1`. -/
def storeFresh : Store := storePut emptyStore "realm1" rowFresh

/-- Store holding `rowNoRT` under realm `realm1`. -/
def storeNoRT : Store := storePut emptyStore "realm1" rowNoRT

/-- A successful provider refresh/exchange response that rotates the refresh
token. -/
def respOK : TokenResponse :=
  { status_code := 200, error := none, access_token := some "NEWTOK",
    refresh_token := some "RT2", expires_in := some 3600,
    x_refresh_token_expires_in := some 8726400 }

/-- A successful provider response whose `refresh_token` field is the empty
string (falsy). -/
def respEmptyRT : TokenResponse :=
  { status_code := 200, error := none, access_token := some "NEWTOK",
    refresh_token := some "", expires_in := some 3600,
    x_refresh_token_expires_in := none }

/-- A successful provider response that omits the `refresh_token` field. -/
def respNoRT : TokenResponse :=
  { status_code := 200, error := none, access_token := some "NEWTOK",
    refresh_token := none, expires_in := some 3600,
    x_refresh_token_expires_in := none }

/-- A non-2xx, non-4xx provider response reporting `invalid_grant`. -/
def respInvalidGrant302 : TokenResponse :=
  { status_code := 302, error := some "invalid_grant", access_token := none,
    refresh_token := none, expires_in := none,
    x_refresh_token_expires_in := none }

/-- A 400 provider response reporting `invalid_grant`. -/
def respInvalidGrant400 : TokenResponse :=
  { status_code := 400, error := some "invalid_grant", access_token := none,
    refresh_token := none, expires_in := none,
    x_refresh_token_expires_in := none }

/-- A 500 provider response with no error field. -/
def respServerError : TokenResponse :=
  { status_code := 500, error := none, access_token := none,
    refresh_token := none, expires_in := none,
    x_refresh_token_expires_in := none }

/-- A 200 provider response missing the access token. -/
def respNoAT : TokenResponse :=
  { status_code := 200, error := none, access_token := none,
    refresh_token := some "RT2", expires_in := some 3600,
    x_refresh_token_expires_in := none }

/-!
Claim theorems.
-/

/-- C1: for a realm with a stored record holding an access token and an
expiry, `get_valid_access_token` returns the stored token unchanged with no
refresh HTTP call when `expires_at` is more than `skew` seconds in the future,
and issues exactly one refresh call returning the newly obtained access token
when `expires_at` is within `skew` seconds of now or already passed (and the
refresh succeeds). -/
theorem get_valid_access_token_skew
    (store : Store) (realm : String) (row : TokenRecord) (a : String) (e : Int)
    (resp : TokenResponse) (now skew : Int)
    (hrow : store realm = some row) (hacc : row.access_token = some a)
    (ha : a.isEmpty = false) (hexp : row.expires_at = some e) :
    (now + skew < e →
      get_valid_access_token store realm resp now skew
        = (Except.ok (a, store), 0))
    ∧ (e ≤ now + skew →
      ∀ rt nt : String, row.refresh_token = some rt → rt.isEmpty = false →
        resp.status_code < 400 → resp.access_token = some nt →
        nt.isEmpty = false →
        get_valid_access_token store realm resp now skew
          = (Except.ok (nt, storePut store realm (refreshedRecord row resp now)), 1)) := by
  constructor
  · intro hlt
    have hnle : ¬ e ≤ now + skew := by omega
    simp [get_valid_access_token, hrow, hacc, hexp, ha, hnle]
  · intro hle rt nt hrt hrtne hst hat hatne
    have h400 : ¬ 400 ≤ resp.status_code := by omega
    simp [get_valid_access_token, refresh_access_token, hrow, hacc, hexp, ha,
      hle, hrt, truthyStr, hrtne, h400, hat, hatne]

/-- C1 witness: concrete instances of both branches of
`get_valid_access_token_skew`. -/
theorem get_valid_access_token_skew_witness :
    get_valid_access_token store1 "realm1" respOK 0 300
      = (Except.ok ("NEWTOK", storePut store1 "realm1" (refreshedRecord row1 respOK 0)), 1)
    ∧ get_valid_access_token storeFresh "realm1" respOK 0 300
      = (Except.ok ("OLDTOK", storeFresh), 0) := by
  constructor
  · exact (get_valid_access_token_skew store1 "realm1" row1 "OLDTOK" 100 respOK
      0 300 rfl rfl rfl rfl).2 (by norm_num) "RT1" "NEWTOK" rfl rfl
      (by decide) rfl rfl
  · exact (get_valid_access_token_skew storeFresh "realm1" rowFresh "OLDTOK"
      100000 respOK 0 300 rfl rfl rfl rfl).1 (by norm_num)

/-- C2: a successful refresh overwrites the stored access token and expiry;
the stored refresh token is overwritten when the provider response includes a
new (truthy) refresh token and is left intact when the response omits one. -/
theorem refresh_access_token_rotation
    (store : Store) (realm : String) (row : TokenRecord) (rt : String)
    (resp : TokenResponse) (now : Int) (nt : String)
    (hrow : store realm = some row) (hrt : row.refresh_token = some rt)
    (hne : rt.isEmpty = false) (hst : resp.status_code < 400)
    (hat : resp.access_token = some nt) (hnt : nt.isEmpty = false) :
    refresh_access_token store realm resp now
      = (Except.ok (nt, storePut store realm (refreshedRecord row resp now)), 1)
    ∧ storePut store realm (refreshedRecord row resp now) realm
        = some (refreshedRecord row resp now)
    ∧ (refreshedRecord row resp now).access_token = some nt
    ∧ (refreshedRecord row resp now).expires_at = some (now + respExpiresIn resp)
    ∧ (∀ s : String, resp.refresh_token = some s → s.isEmpty = false →
        (refreshedRecord row resp now).refresh_token = some s)
    ∧ (resp.refresh_token = none →
        (refreshedRecord row resp now).refresh_token = some rt) := by
  have h400 : ¬ 400 ≤ resp.status_code := by omega
  refine ⟨?_, ?_, ?_, ?_, ?_, ?_⟩
  · simp [refresh_access_token, hrow, hrt, truthyStr, hne, h400, hat, hnt]
  · simp [storePut]
  · simp [refreshedRecord, hat]
  · simp [refreshedRecord]
  · intro s hs hsne
    simp [refreshedRecord, hs, truthyStr, hsne]
  · intro hnone
    simp [refreshedRecord, hnone, truthyStr, hrt]

/-- C2 witness: concrete refresh with rotation (`respOK`) and without
(`respNoRT`). -/
theorem refresh_access_token_rotation_witness :
    refresh_access_token store1 "realm1" respOK 0
      = (Except.ok ("NEWTOK", storePut store1 "realm1" (refreshedRecord row1 respOK 0)), 1)
    ∧ (refreshedRecord row1 respOK 0).refresh_token = some "RT2"
    ∧ (refreshedRecord row1 respNoRT 0).refresh_token = some "RT1"
    ∧ (refreshedRecord row1 respNoRT 0).access_token = some "NEWTOK" := by
  have h1 := refresh_access_token_rotation store1 "realm1" row1 "RT1" respOK 0
    "NEWTOK" rfl rfl rfl (by decide) rfl rfl
  have h2 := refresh_access_token_rotation store1 "realm1" row1 "RT1" respNoRT 0
    "NEWTOK" rfl rfl rfl (by decide) rfl rfl
  exact ⟨h1.1, h1.2.2.2.2.1 "RT2" rfl rfl, h2.2.2.2.2.2 rfl, h2.2.2.1⟩

/-- C10: a successful refresh whose provider response carries a falsy (empty
string) `refresh_token` field keeps the previously stored refresh token while
still storing the new access token and expiry. -/
theorem refresh_access_token_falsy_refresh_token
    (store : Store) (realm : String) (row : TokenRecord) (rt : String)
    (resp : TokenResponse) (now : Int) (nt : String)
    (hrow : store realm = some row) (hrt : row.refresh_token = some rt)
    (hne : rt.isEmpty = false) (hst : resp.status_code < 400)
    (hat : resp.access_token = some nt) (hnt : nt.isEmpty = false)
    (hfr : resp.refresh_token = some "") :
    refresh_access_token store realm resp now
      = (Except.ok (nt, storePut store realm (refreshedRecord row resp now)), 1)
    ∧ (refreshedRecord row resp now).refresh_token = some rt
    ∧ (refreshedRecord row resp now).access_token = some nt
    ∧ (refreshedRecord row resp now).expires_at
        = some (now + respExpiresIn resp) := by
  have h400 : ¬ 400 ≤ resp.status_code := by omega
  have hfalsy : truthyStr resp.refresh_token = false := by rw [hfr]; decide
  refine ⟨?_, ?_, ?_, ?_⟩
  · simp [refresh_access_token, hrow, hrt, truthyStr, hne, h400, hat, hnt]
  · simp [refreshedRecord, hfalsy, hrt]
  · simp [refreshedRecord, hat]
  · simp [refreshedRecord]

/-- C10 witness: concrete refresh against `respEmptyRT`. -/
theorem refresh_access_token_falsy_refresh_token_witness :
    refresh_access_token store1 "realm1" respEmptyRT 0
      = (Except.ok ("NEWTOK", storePut store1 "realm1" (refreshedRecord row1 respEmptyRT 0)), 1)
    ∧ (refreshedRecord row1 respEmptyRT 0).refresh_token = some "RT1"
    ∧ (refreshedRecord row1 respEmptyRT 0).access_token = some "NEWTOK"
    ∧ (refreshedRecord row1 respEmptyRT 0).expires_at = some 3600 := by
  have h := refresh_access_token_falsy_refresh_token store1 "realm1" row1 "RT1"
    respEmptyRT 0 "NEWTOK" rfl rfl rfl (by decide) rfl rfl rfl
  exact ⟨h.1, h.2.1, h.2.2.1, h.2.2.2⟩

/-- C3 counterexample: a non-2xx (302) provider response reporting
`invalid_grant` does not make the refresh fail with `ReconnectRequired` as the
claim states; the code only treats status ≥ 400 as an error, so this response
falls through to the missing-access-token check and fails with
`TokenRefreshFailed`. -/
theorem refresh_non2xx_invalid_grant_cex :
    (respInvalidGrant302.status_code < 200 ∨ 300 ≤ respInvalidGrant302.status_code)
    ∧ invalidGrantReported respInvalidGrant302 = true
    ∧ (refresh_access_token store1 "realm1" respInvalidGrant302 0).1
        = Except.error TokenError.tokenRefreshFailed := by
  refine ⟨Or.inr (by decide), by decide, rfl⟩

/-- C3 amended: for a refresh call that reaches the provider, a response with
status ≥ 400 reporting invalid_grant fails with `ReconnectRequired` (never
`TokenRefreshFailed`); any other status ≥ 400 response, and any status < 400
response missing an access token, fails with `TokenRefreshFailed`. -/
theorem refresh_access_token_error_taxonomy
    (store : Store) (realm : String) (row : TokenRecord) (rt : String)
    (resp : TokenResponse) (now : Int)
    (hrow : store realm = some row) (hrt : row.refresh_token = some rt)
    (hne : rt.isEmpty = false) :
    (400 ≤ resp.status_code → invalidGrantReported resp = true →
      refresh_access_token store realm resp now
        = (Except.error TokenError.reconnectRequired, 1))
    ∧ (400 ≤ resp.status_code → invalidGrantReported resp = false →
      refresh_access_token store realm resp now
        = (Except.error TokenError.tokenRefreshFailed, 1))
    ∧ (resp.status_code < 400 → truthyStr resp.access_token = false →
      refresh_access_token store realm resp now
        = (Except.error TokenError.tokenRefreshFailed, 1)) := by
  refine ⟨?_, ?_, ?_⟩
  · intro h400 hig
    simp [refresh_access_token, hrow, hrt, truthyStr, hne, h400, hig]
  · intro h400 hig
    simp [refresh_access_token, hrow, hrt, truthyStr, hne, h400, hig]
  · intro hlt hat
    have h400 : ¬ 400 ≤ resp.status_code := by omega
    cases hcase : resp.access_token with
    | none =>
      simp [refresh_access_token, hrow, hrt, truthyStr, hne, h400, hcase]
    | some s =>
      rw [hcase] at hat
      simp only [truthyStr] at hat
      have hse : s.isEmpty = true := by simpa using hat
      simp [refresh_access_token, hrow, hrt, truthyStr, hne, h400, hcase, hse]

/-- C3 witness: the three branches of the amended taxonomy at concrete
responses (400 + invalid_grant, 500 without invalid_grant, 200 without access
token). -/
theorem refresh_access_token_error_taxonomy_witness :
    refresh_access_token store1 "realm1" respInvalidGrant400 0
      = (Except.error TokenError.reconnectRequired, 1)
    ∧ refresh_access_token store1 "realm1" respServerError 0
      = (Except.error TokenError.tokenRefreshFailed, 1)
    ∧ refresh_access_token store1 "realm1" respNoAT 0
      = (Except.error TokenError.tokenRefreshFailed, 1) := by
  refine ⟨?_, ?_, ?_⟩
  · exact (refresh_access_token_error_taxonomy store1 "realm1" row1 "RT1"
      respInvalidGrant400 0 rfl rfl rfl).1 (by decide) (by decide)
  · exact (refresh_access_token_error_taxonomy store1 "realm1" row1 "RT1"
      respServerError 0 rfl rfl rfl).2.1 (by decide) (by decide)
  · exact (refresh_access_token_error_taxonomy store1 "realm1" row1 "RT1"
      respNoAT 0 rfl rfl rfl).2.2 (by decide) (by decide)

/-- C5 counterexample: a realm whose stored record holds a valid access token
but no refresh token does not make `get_valid_access_token` fail with
`ReconnectRequired` as the claim states; the stored access token is returned
because the refresh token is only consulted when a refresh is needed. -/
theorem get_valid_no_refresh_token_cex :
    (storeNoRT "realm1").map (fun row => row.refresh_token) = some none
    ∧ (get_valid_access_token storeNoRT "realm1" respOK 0 300).1
        = Except.ok ("ATOK", storeNoRT) := by
  exact ⟨rfl, rfl⟩

/-- C5 amended: `get_valid_access_token` fails with `ReconnectRequired`
whenever no record exists for the realm, or the record lacks a (nonempty)
access token or an expiry, or the expiry is within the skew (so a refresh is
needed) and the record holds no (nonempty) refresh token; no refresh HTTP
call is made in any of these cases. -/
theorem get_valid_access_token_reconnect
    (store : Store) (realm : String) (resp : TokenResponse) (now skew : Int) :
    (store realm = none →
      get_valid_access_token store realm resp now skew
        = (Except.error TokenError.reconnectRequired, 0))
    ∧ (∀ row, store realm = some row → truthyStr row.access_token = false →
      get_valid_access_token store realm resp now skew
        = (Except.error TokenError.reconnectRequired, 0))
    ∧ (∀ row, store realm = some row → row.expires_at = none →
      get_valid_access_token store realm resp now skew
        = (Except.error TokenError.reconnectRequired, 0))
    ∧ (∀ row e, store realm = some row → truthyStr row.access_token = true →
      row.expires_at = some e → e ≤ now + skew →
      truthyStr row.refresh_token = false →
      get_valid_access_token store realm resp now skew
        = (Except.error TokenError.reconnectRequired, 0)) := by
  refine ⟨?_, ?_, ?_, ?_⟩
  · intro hrow
    simp [get_valid_access_token, hrow]
  · intro row hrow hacc
    cases hat : row.access_token with
    | none => simp [get_valid_access_token, hrow, hat]
    | some a =>
      rw [hat] at hacc
      simp only [truthyStr] at hacc
      have hae : a.isEmpty = true := by simpa using hacc
      cases hexp : row.expires_at with
      | none => simp [get_valid_access_token, hrow, hat, hexp]
      | some e => simp [get_valid_access_token, hrow, hat, hexp, hae]
  · intro row hrow hexp
    cases hat : row.access_token with
    | none => simp [get_valid_access_token, hrow, hat, hexp]
    | some a => simp [get_valid_access_token, hrow, hat, hexp]
  · intro row e hrow hacc hexp hle hrt
    cases hat : row.access_token with
    | none => rw [hat] at hacc; simp [truthyStr] at hacc
    | some a =>
      rw [hat] at hacc
      simp only [truthyStr, Bool.not_eq_true'] at hacc
      simp [get_valid_access_token, refresh_access_token, hrow, hat, hexp,
        hacc, hle, hrt]

/-- C5 witness: concrete instances of the amended reconnect conditions: an
absent record and a record whose refresh token is missing at refresh time. -/
theorem get_valid_access_token_reconnect_witness :
    get_valid_access_token emptyStore "realm1" respOK 0 300
      = (Except.error TokenError.reconnectRequired, 0)
    ∧ get_valid_access_token (storePut emptyStore "realm1" rowSoonNoRT) "realm1" respOK 0 300
      = (Except.error TokenError.reconnectRequired, 0) := by
  constructor
  · exact (get_valid_access_token_reconnect emptyStore "realm1" respOK 0 300).1 rfl
  · exact (get_valid_access_token_reconnect (storePut emptyStore "realm1" rowSoonNoRT)
      "realm1" respOK 0 300).2.2.2 rowSoonNoRT 100 rfl (by decide) rfl
      (by norm_num) (by decide)

/-- A 200 exchange response containing an access token but no refresh token:
the callback rejects it, echoing the full provider body as `details`. -/
def respLeak : TokenResponse :=
  { status_code := 200, error := none, access_token := some "SECRET-AT",
    refresh_token := none, expires_in := some 3600,
    x_refresh_token_expires_in := none }

/-- C4: evaluation at the failing input.  A callback whose code exchange
returns 200 with an access token but no refresh token is answered with the
`missing_tokens_in_response` error body, and that body echoes the provider
response (`details`) — including the provider-returned access-token value —
to the caller, contradicting the invariant that token values never appear in
any API response body. -/
theorem oauth_callback_token_leak :
    respLeak.access_token = some "SECRET-AT"
    ∧ (oauth_callback emptyStore (some "authcode") (some "realm1") (some "st1")
        (some "st1") respLeak 0).1
      = CallbackResult.missingTokens respLeak
    ∧ "SECRET-AT" ∈ responseStrings (oauth_callback emptyStore (some "authcode")
        (some "realm1") (some "st1") (some "st1") respLeak 0).1 := by
  refine ⟨rfl, by decide, by decide⟩

/-- Helper: a state/cookie mismatch (or absent cookie) on a callback with
nonempty parameters yields `InvalidState` with the store unchanged. -/
lemma oauthCallbackStateMismatch
    (store : Store) (c r s : String) (cookie : Option String)
    (resp : TokenResponse) (now : Int)
    (hc : c.isEmpty = false) (hr : r.isEmpty = false) (hs : s.isEmpty = false)
    (hmismatch : cookie ≠ some s) :
    oauth_callback store (some c) (some r) (some s) cookie resp now
      = (CallbackResult.invalidState, store) := by
  cases cookie with
  | none => simp [oauth_callback, truthyStr, hc, hr, hs]
  | some cs =>
    have hne : cs ≠ s := fun h => hmismatch (by rw [h])
    by_cases hcse : cs.isEmpty
    · simp [oauth_callback, truthyStr, hc, hr, hs, hcse]
    · simp [oauth_callback, truthyStr, hc, hr, hs, hcse, hne]

/-- C6: a callback carrying nonempty code, realm and state parameters whose
state does not match the `qbo_oauth_state` cookie (absent cookie included) is
rejected with `InvalidState` and leaves the store unchanged, whatever the
code, realm and exchange response are. -/
theorem oauth_callback_invalid_state
    (store : Store) (c r s : String) (cookie : Option String)
    (resp : TokenResponse) (now : Int)
    (hc : c.isEmpty = false) (hr : r.isEmpty = false) (hs : s.isEmpty = false)
    (hmismatch : cookie ≠ some s) :
    oauth_callback store (some c) (some r) (some s) cookie resp now
      = (CallbackResult.invalidState, store) :=
  oauthCallbackStateMismatch store c r s cookie resp now hc hr hs hmismatch

/-- C6 witness: a concrete mismatching state is rejected even though code and
realm are present and the exchange response would be valid. -/
theorem oauth_callback_invalid_state_witness :
    oauth_callback emptyStore (some "authcode") (some "realm1") (some "state1")
      (some "other") respOK 0 = (CallbackResult.invalidState, emptyStore) :=
  oauth_callback_invalid_state emptyStore "authcode" "realm1" "state1"
    (some "other") respOK 0 rfl rfl rfl (by decide)

/-- C7: each callback failure — missing parameters, state mismatch, failed
(status ≥ 400) exchange, tokens missing from the exchange response — returns
its own distinct error outcome; and every outcome other than `connected`
leaves the token store unchanged (no record created or modified). -/
theorem oauth_callback_failure_frame
    (store : Store) (code realmId state cookie : Option String)
    (resp : TokenResponse) (now : Int) :
    ((truthyStr code && truthyStr realmId && truthyStr state) = false →
      oauth_callback store code realmId state cookie resp now
        = (CallbackResult.missingParams code realmId state, store))
    ∧ (∀ c r s, code = some c → realmId = some r → state = some s →
        c.isEmpty = false → r.isEmpty = false → s.isEmpty = false →
        cookie ≠ some s →
      oauth_callback store code realmId state cookie resp now
        = (CallbackResult.invalidState, store))
    ∧ (∀ c r s, code = some c → realmId = some r → state = some s →
        c.isEmpty = false → r.isEmpty = false → s.isEmpty = false →
        cookie = some s → 400 ≤ resp.status_code →
      oauth_callback store code realmId state cookie resp now
        = (CallbackResult.tokenExchangeFailed resp, store))
    ∧ (∀ c r s, code = some c → realmId = some r → state = some s →
        c.isEmpty = false → r.isEmpty = false → s.isEmpty = false →
        cookie = some s → resp.status_code < 400 →
        (truthyStr resp.access_token = false ∨ truthyStr resp.refresh_token = false) →
      oauth_callback store code realmId state cookie resp now
        = (CallbackResult.missingTokens resp, store))
    ∧ (∀ res st2,
        oauth_callback store code realmId state cookie resp now = (res, st2) →
        (∀ r, res ≠ CallbackResult.connected r) → st2 = store) := by
  refine ⟨?_, ?_, ?_, ?_, ?_⟩
  · intro hfalsy
    simp [oauth_callback, hfalsy]
  · intro c r s hcode hrealm hstate hc hr hs hmis
    subst hcode; subst hrealm; subst hstate
    exact oauthCallbackStateMismatch store c r s cookie resp now hc hr hs hmis
  · intro c r s hcode hrealm hstate hc hr hs hck h400
    subst hcode; subst hrealm; subst hstate; subst hck
    simp [oauth_callback, truthyStr, hc, hr, hs, h400]
  · intro c r s hcode hrealm hstate hc hr hs hck hlt hfalsy
    subst hcode; subst hrealm; subst hstate; subst hck
    have h400 : ¬ 400 ≤ resp.status_code := by omega
    cases hat : resp.access_token with
    | none => simp [oauth_callback, truthyStr, hc, hr, hs, h400, hat]
    | some tok =>
      cases hrt : resp.refresh_token with
      | none => simp [oauth_callback, truthyStr, hc, hr, hs, h400, hat, hrt]
      | some rt =>
        rw [hat, hrt] at hfalsy
        simp only [truthyStr] at hfalsy
        have hor : (tok.isEmpty || rt.isEmpty) = true := by
          rcases hfalsy with h | h
          · simp [show tok.isEmpty = true from by simpa using h]
          · simp [show rt.isEmpty = true from by simpa using h]
        simp [oauth_callback, truthyStr, hc, hr, hs, h400, hat, hrt, hor]
  · intro res st2 heq hnc
    unfold oauth_callback at heq
    repeat' split at heq
    all_goals (cases heq; first | rfl | exact absurd rfl (hnc _))

/-- C7 witness: two concrete failing callbacks (missing code; tokens missing
from the exchange response) leave a concrete store unchanged, with their
distinct error bodies. -/
theorem oauth_callback_failure_frame_witness :
    oauth_callback store1 none (some "realm1") (some "st1") (some "st1") respOK 0
      = (CallbackResult.missingParams none (some "realm1") (some "st1"), store1)
    ∧ oauth_callback store1 (some "authcode") (some "realm1") (some "st1")
        (some "st1") respLeak 0
      = (CallbackResult.missingTokens respLeak, store1) := by
  constructor
  · exact (oauth_callback_failure_frame store1 none (some "realm1") (some "st1")
      (some "st1") respOK 0).1 (by decide)
  · exact (oauth_callback_failure_frame store1 (some "authcode") (some "realm1")
      (some "st1") (some "st1") respLeak 0).2.2.2.1 "authcode" "realm1" "st1"
      rfl rfl rfl rfl rfl rfl rfl (by decide) (Or.inr (by decide))

/-- Helper: running the paging loop from any start over full pages followed by
one short page consumes exactly those pages, concatenating the rows and
issuing starts that advance by the page size. -/
lemma qboQueryGo_full_pages {α : Type} (ps : Nat) (full : List (List α))
    (lastPage : List α) (hfull : ∀ b ∈ full, b.length = ps)
    (hlast : lastPage.length < ps) (start : Nat) :
    qboQueryGo ps (full ++ [lastPage]) start
      = ((full ++ [lastPage]).flatten,
         (List.range (full.length + 1)).map (fun i => start + i * ps)) := by
  induction full generalizing start with
  | nil =>
    have h1 : List.range 1 = [0] := rfl
    simp [qboQueryGo, hlast, h1]
  | cons b bs ih =>
    have hb : b.length = ps := hfull b (by simp)
    have hbs : ∀ x ∈ bs, x.length = ps := fun x hx => hfull x (by simp [hx])
    have hnl : ¬ b.length < ps := by omega
    simp only [List.cons_append, qboQueryGo, hnl, if_false, List.append_eq]
    rw [ih hbs (start + ps)]
    simp only [Prod.mk.injEq]
    constructor
    · rw [List.flatten_cons]
    · rw [List.length_cons]
      conv_rhs => rw [List.range_succ_eq_map, List.map_cons, List.map_map]
      simp only [List.cons.injEq]
      refine ⟨by omega, List.map_congr_left (fun i _ => ?_)⟩
      simp only [Function.comp_apply, Nat.succ_eq_add_one]
      ring

/-- C8: for a provider answering with a sequence of full pages followed by one
page shorter than the page size, `qbo_query_all` issues one query per page
with 1-based start positions advancing by the page size, stops at the short
page, and returns all rows concatenated in page order. -/
theorem qbo_query_all_pagination {α : Type} (full : List (List α))
    (lastPage : List α) (ps : Nat)
    (hfull : ∀ b ∈ full, b.length = ps) (hlast : lastPage.length < ps) :
    qbo_query_all (full ++ [lastPage]) ps
      = ((full ++ [lastPage]).flatten,
         (List.range (full.length + 1)).map (fun i => 1 + i * ps)) :=
  qboQueryGo_full_pages ps full lastPage hfull hlast 1

/-- C8 witness: pages of sizes [1000, 1000, 400] produce exactly 3 calls at
start positions 1, 1001, 2001 with all rows concatenated; a single first page
of size 400 produces exactly 1 call. -/
theorem qbo_query_all_pagination_witness :
    qbo_query_all [List.replicate 1000 (0 : Nat), List.replicate 1000 0,
        List.replicate 400 0] 1000
      = (List.replicate 2400 0, [1, 1001, 2001])
    ∧ qbo_query_all [List.replicate 400 (0 : Nat)] 1000
      = (List.replicate 400 0, [1]) := by
  constructor
  · have h := qbo_query_all_pagination
      [List.replicate 1000 (0 : Nat), List.replicate 1000 0]
      (List.replicate 400 0) 1000
      (by intro b hb; simp only [List.mem_cons, List.not_mem_nil, or_false] at hb
          rcases hb with rfl | rfl <;> exact List.length_replicate 1000 0)
      (by rw [List.length_replicate]; norm_num)
    simp only [List.cons_append, List.nil_append] at h
    rw [h]
    simp only [Prod.mk.injEq]
    constructor
    · rw [show (2400 : Nat) = 1000 + (1000 + 400) by norm_num,
        List.replicate_add, List.replicate_add]
      simp only [List.flatten_cons, List.flatten_nil, List.append_nil,
        List.append_assoc]
    · decide
  · have h := qbo_query_all_pagination ([] : List (List Nat))
      (List.replicate 400 (0 : Nat)) 1000 (by intro b hb; simp at hb)
      (by rw [List.length_replicate]; norm_num)
    simp only [List.nil_append, List.flatten_cons, List.flatten_nil,
      List.append_nil, List.length_nil] at h
    rw [h]
    have h1 : (List.range (0 + 1)).map (fun i => 1 + i * 1000) = [1] := rfl
    rw [h1]

/-- C9: per flattened row, the 19 extracted (non-raw-blob) CSV columns carry
exactly the csv-rendered values of the corresponding JSON-export fields, for
every invoice set and realm; so exporting the same report to CSV and to JSON
preserves the extracted field values (ignoring the `Line_json` and
`Invoice_json` raw-blob columns). -/
theorem invoice_export_roundtrip (realm : String) (invoices : List J) :
    (csvExport realm invoices).map (fun cells => cells.take 19)
      = (jsonExport realm invoices).map
          (fun r => (extractedJsonVals r).map csvRender) := by
  simp only [csvExport, jsonExport, List.map_map]
  exact List.map_congr_left (fun r _ => rfl)
